import Mathlib

/-!
Verification of the conversation-orchestration core of the agentic-commerce
repository: the session store (`actions/session/manager.js`), the intent
classifier and tool dispatcher (`actions/agent/orchestrator.js`), the built-in
tool registry (`actions/tools/built-in/index.js`, `product-tools.js`,
`cart-tools.js`) against its natural-language specification.

The JavaScript source is shallowly embedded: dynamic JS values are modelled by
the inductive `JsonV`; JS objects by ordered association lists of
`String × JsonV`; the network boundaries (the Magento GraphQL client and the
language-model provider) are modelled as oracles, since the code under
verification only observes their returned value or their thrown error.
Timestamps (`new Date().toISOString()`) are threaded as explicit `now`
arguments.
-/

namespace Agentic

/-- A JavaScript (JSON-like) runtime value. Numbers are modelled as integers
(every number occurring in the verified code paths is an integer); `jnull`
models both JS `null` and `undefined`. -/
inductive JsonV where
  | jstr : String → JsonV
  | jnum : Int → JsonV
  | jbool : Bool → JsonV
  | jnull : JsonV
  | jarr : List JsonV → JsonV
  | jobj : List (String × JsonV) → JsonV

/-- A JavaScript object: ordered list of key/value fields, keys unique. -/
abbrev JObj := List (String × JsonV)

/-- Field lookup on an object (first matching key). -/
def getProp : JObj → String → Option JsonV
  | [], _ => none
  | (k, v) :: rest, key => if k = key then some v else getProp rest key

/-- JS property assignment `o[key] = v`: replaces the value in place when the
key exists, appends otherwise (JS insertion-order semantics). -/
def setProp : JObj → String → JsonV → JObj
  | [], key, v => [(key, v)]
  | (k, v') :: rest, key, v =>
      if k = key then (k, v) :: rest else (k, v') :: setProp rest key v

/-- JS member access `o.key` on an arbitrary value: a missing field (or a
non-object receiver) yields `jnull` (modelling JS `undefined`). -/
def propV (o : JsonV) (key : String) : JsonV :=
  match o with
  | .jobj fields => (getProp fields key).getD .jnull
  | _ => .jnull

/-- JS truthiness of a value: `""`, `0`, `false`, `null`/`undefined` are falsy;
arrays and objects are truthy. -/
def falsy : JsonV → Bool
  | .jstr s => s == ""
  | .jnum n => n == 0
  | .jbool b => !b
  | .jnull => true
  | .jarr _ => false
  | .jobj _ => false

/-- JS `a || b`. -/
def jsOrV (a b : JsonV) : JsonV := if falsy a then b else a

/-- JS `Math.min(v, k)` for the values the code feeds it: on a number it is
the minimum, on anything else JS produces `NaN`, modelled as `jnull`. -/
def jsMathMin (v : JsonV) (k : Int) : JsonV :=
  match v with
  | .jnum n => .jnum (min n k)
  | _ => .jnull

/-- JS strict equality `v === 1` as used for the add-to-cart message. -/
def isJsOne (v : JsonV) : Bool :=
  match v with
  | .jnum n => n == 1
  | _ => false

/-- JS truthiness of an optional string (`undefined`/`null` and `""` falsy). -/
def truthyOptStr : Option String → Bool
  | none => false
  | some s => s != ""

/-- Display of a scalar inside a template string (claim-irrelevant shapes map
to the empty string). -/
def jvDisplay : JsonV → String
  | .jstr s => s
  | .jnum n => toString n
  | .jbool b => toString b
  | _ => ""

/-- Reads a string out of a value, as used for error-message fields. -/
def jvToString : JsonV → String
  | .jstr s => s
  | _ => ""

/-! ### String helpers for the classifier fallback (orchestrator.js 158-177) -/

/-- JS `String.prototype.toLowerCase` (agrees with JS on the ASCII inputs the
claims exercise). -/
def jsToLowerCase (s : String) : String := String.mk (s.data.map Char.toLower)

/-- Auxiliary: the first list starts the second, compared with `==`. -/
def charsStartWith : List Char → List Char → Bool
  | [], _ => true
  | _ :: _, [] => false
  | a :: as, b :: bs => a == b && charsStartWith as bs

/-- JS `String.prototype.includes`: the pattern occurs as a contiguous
substring. -/
def strIncludes (s pat : String) : Bool :=
  (List.range (s.data.length + 1)).any (fun i => charsStartWith pat.data (s.data.drop i))

/-! ### Session store — actions/session/manager.js (src/unnamed/part_004)

The deployed configuration constructs `SessionManager(null)`
(actions/chat/index.js line 11), so the optional durable backing store is
absent and `loadSession`/`saveSession` reduce to the in-memory `Map`, which we
model as an association list keyed by session id. -/

/-- One entry of `conversationHistory` (manager.js lines 135-140): the
`...metadata` object spread is carried as an opaque field list. -/
structure Message where
  role : String
  content : String
  timestamp : String
  metadata : JObj

/-- A session object (manager.js lines 63-73): `metadata.createdAt` and
`metadata.lastActivity` are the two `metaXxx` fields. -/
structure Session where
  sessionId : String
  userType : String
  customerToken : Option String
  cartId : Option String
  conversationHistory : List Message
  metaCreatedAt : String
  metaLastActivity : String

/-- The in-memory session `Map` of `SessionManager`. -/
abbrev Store := List (String × Session)

/-- `this.sessions.get(sessionId)` / `loadSession` (manager.js 83-103) with no
durable backing store. -/
def findSession : Store → String → Option Session
  | [], _ => none
  | (k, s) :: rest, sid => if k = sid then some s else findSession rest sid

/-- `this.sessions.set(session.sessionId, session)`: replace in place when the
key is present, append otherwise. -/
def setSession : Store → Session → Store
  | [], s => [(s.sessionId, s)]
  | (k, s') :: rest, s =>
      if k = s.sessionId then (k, s) :: rest else (k, s') :: setSession rest s

/-- `saveSession` (manager.js 108-123): stamps `metadata.lastActivity` and
writes the session into the in-memory cache; returns the stamped session
(in JS the caller keeps the same mutated object). -/
def saveSession (now : String) (store : Store) (s : Session) : Session × Store :=
  let s' := { s with metaLastActivity := now }
  (s', setSession store s')

/-- `createSession` (manager.js 60-78): `customerToken ? 'logged-in' : 'guest'`
with JS truthiness, `customerToken || null`, `cartId || null`, empty history.
`freshId` models the generated `uuidv4()`. -/
def createSession (customerToken cartId : Option String) (freshId now : String)
    (store : Store) : Session × Store :=
  let session : Session :=
    { sessionId := freshId
      userType := if truthyOptStr customerToken then "logged-in" else "guest"
      customerToken := if truthyOptStr customerToken then customerToken else none
      cartId := if truthyOptStr cartId then cartId else none
      conversationHistory := []
      metaCreatedAt := now
      metaLastActivity := now }
  saveSession now store session

/-- `getOrCreateSession` (manager.js 19-55): a truthy `sessionId` that loads an
existing session returns it, upgrading token and `userType` only when a truthy
`customerToken` is supplied and the session has none; otherwise a fresh
session is created. The upgrade branch mutates the cached object, so the
returned session carries the new `lastActivity` stamp. -/
def getOrCreateSession (store : Store) (sessionId customerToken cartId : Option String)
    (freshId now : String) : Session × Store :=
  match sessionId with
  | some sid =>
      if sid != "" then
        match findSession store sid with
        | some existingSession =>
            if truthyOptStr customerToken && !truthyOptStr existingSession.customerToken then
              saveSession now store
                { existingSession with customerToken := customerToken, userType := "logged-in" }
            else
              (existingSession, store)
        | none => createSession customerToken cartId freshId now store
      else createSession customerToken cartId freshId now store
  | none => createSession customerToken cartId freshId now store

/-- The history-append step of `addMessage` (manager.js 142-147): push, then
`slice(-50)` when the length exceeds 50. -/
def pushMessage (history : List Message) (message : Message) : List Message :=
  let h := history ++ [message]
  if h.length > 50 then h.drop (h.length - 50) else h

/-- `addMessage` (manager.js 128-152): throws `Session not found` when the id
does not resolve; otherwise appends the message (truncating to the last 50 at
append time) and saves. Returns the message as the JS function does; the
updated store is threaded explicitly. -/
def addMessage (store : Store) (sessionId role content : String) (metadata : JObj)
    (now : String) : Except String (Message × Store) :=
  match findSession store sessionId with
  | none => .error ("Session not found: " ++ sessionId)
  | some session =>
      let message : Message := { role, content, timestamp := now, metadata }
      let saved := saveSession now store
        { session with conversationHistory := pushMessage session.conversationHistory message }
      .ok (message, saved.2)

/-- JS `list.slice(-limit)` for a natural `limit`: the last `limit` elements —
except that `slice(-0)` is `slice(0)`, the whole list. -/
def jsSliceLast {α : Type} (l : List α) (limit : Nat) : List α :=
  if limit = 0 then l else l.drop (l.length - limit)

/-- `getHistory` (manager.js 157-165): an unresolved id yields `[]`; otherwise
the `slice(-limit)` window of the stored history. -/
def getHistory (store : Store) (sessionId : String) (limit : Nat) : List Message :=
  match findSession store sessionId with
  | none => []
  | some session => jsSliceLast session.conversationHistory limit

/-- `getHistory` at its default argument `limit = 10`. -/
def getHistoryD (store : Store) (sessionId : String) : List Message :=
  getHistory store sessionId 10

/-- `updateCartId` (manager.js 170-181): throws `Session not found` when the
id does not resolve; otherwise overwrites `cartId` and saves. -/
def updateCartId (store : Store) (sessionId cartId now : String) : Except String Store :=
  match findSession store sessionId with
  | none => .error ("Session not found: " ++ sessionId)
  | some session => .ok (saveSession now store { session with cartId := some cartId }).2

/-- `clearHistory` (manager.js 186-194): when the id resolves, empties the
history and saves; when it does not, it silently returns — it does not throw
and does not create a session. -/
def clearHistory (store : Store) (sessionId now : String) : Except String Store :=
  match findSession store sessionId with
  | none => .ok store
  | some session =>
      .ok (saveSession now store { session with conversationHistory := [] }).2

/-! ### Built-in tool registry — actions/tools/built-in

The Magento GraphQL client (`magento-client.js`) is the network boundary: its
`query`/`mutate` either resolve to the response `data` object or throw. It is
modelled as an oracle from the GraphQL document, its variables object, and the
optional customer token, to `Except String JsonV`. The eight documents of
`queries.js` are an enumeration (their GraphQL text lives behind the
boundary). -/

/-- The GraphQL documents exported by `queries.js`. -/
inductive GqlDocument where
  | PRODUCT_SEARCH_QUERY
  | GET_PRODUCT_DETAILS_QUERY
  | CREATE_EMPTY_CART_MUTATION
  | ADD_PRODUCTS_TO_CART_MUTATION
  | GET_CART_QUERY
  | UPDATE_CART_ITEMS_MUTATION
  | REMOVE_ITEM_FROM_CART_MUTATION
  | GET_CUSTOMER_CART_QUERY
deriving DecidableEq

/-- Oracle for `MagentoClient.query` / `MagentoClient.mutate`
(magento-client.js 34-110): returns the GraphQL `data` or throws. -/
structure MagentoClient where
  run : GqlDocument → JObj → Option String → Except String JsonV

/-- The per-request context the orchestrator receives
(actions/chat/index.js 79-86): the session's customer token and cart id. -/
structure RequestContext where
  customerToken : Option String
  cartId : Option String

/-- The result shape every tool returns
(`{success, data?, error?, message?}`). -/
structure CapabilityResult where
  success : Bool
  data : Option JsonV := none
  error : Option String := none
  message : Option String := none

/-- The `pageSize`/`currentPage` defaulting and the variables object built by
`productSearchTool.execute` (product-tools.js 31-39): destructuring defaults
10 and 1 apply only when the field is absent, and the forwarded page size is
`Math.min(pageSize, 20)`. -/
def searchQueryVars (params : JObj) : JObj :=
  let query := (getProp params "query").getD .jnull
  let pageSize := (getProp params "pageSize").getD (.jnum 10)
  let currentPage := (getProp params "currentPage").getD (.jnum 1)
  [("search", query), ("pageSize", jsMathMin pageSize 20), ("currentPage", currentPage)]

/-- `item.image?.url || item.small_image?.url` and the rest of the product
reshaping (product-tools.js 41-51). -/
def mapProductItem (item : JsonV) : JsonV :=
  let minPrice := propV (propV item "price_range") "minimum_price"
  .jobj
    [("id", propV item "id"), ("sku", propV item "sku"), ("name", propV item "name"),
     ("price", propV (propV minPrice "final_price") "value"),
     ("regularPrice", propV (propV minPrice "regular_price") "value"),
     ("currency", propV (propV minPrice "final_price") "currency"),
     ("image", jsOrV (propV (propV item "image") "url") (propV (propV item "small_image") "url")),
     ("stockStatus", propV item "stock_status"),
     ("urlKey", propV item "url_key")]

/-- `productSearchTool.execute` (product-tools.js 29-72). Note the client is
called without a customer token. A response whose `products.items` is not an
array makes the JS `.map` throw into the catch; the catch branch's
`success:false` shape is modelled with the thrown message abstracted as
`"TypeError"`. -/
def productSearchToolExecute (client : MagentoClient) (params : JObj)
    (_context : RequestContext) : CapabilityResult :=
  match client.run .PRODUCT_SEARCH_QUERY (searchQueryVars params) none with
  | .error e => { success := false, error := some e }
  | .ok data =>
      match propV (propV data "products") "items" with
      | .jarr items =>
          { success := true
            data := some (.jobj
              [("products", .jarr (items.map mapProductItem)),
               ("totalCount", propV (propV data "products") "total_count"),
               ("pageInfo", propV (propV data "products") "page_info")])
            message := some ("Found " ++ toString items.length ++ " products matching \""
              ++ jvDisplay ((getProp params "query").getD .jnull) ++ "\"") }
      | _ => { success := false, error := some "TypeError" }

/-- `getProductDetailsTool.execute` (product-tools.js 89-131). -/
def getProductDetailsToolExecute (client : MagentoClient) (params : JObj)
    (_context : RequestContext) : CapabilityResult :=
  let sku := (getProp params "sku").getD .jnull
  match client.run .GET_PRODUCT_DETAILS_QUERY [("sku", sku)] none with
  | .error e => { success := false, error := some e }
  | .ok data =>
      match propV (propV data "products") "items" with
      | .jarr [] =>
          { success := false
            error := some ("Product with SKU \"" ++ jvDisplay sku ++ "\" not found") }
      | .jarr (product :: _) =>
          { success := true
            data := some (.jobj
              [("id", propV product "id"), ("sku", propV product "sku"),
               ("name", propV product "name"),
               ("description", propV (propV product "description") "html"),
               ("price", propV (propV (propV (propV product "price_range") "minimum_price")
                  "final_price") "value"),
               ("currency", propV (propV (propV (propV product "price_range") "minimum_price")
                  "final_price") "currency"),
               ("image", propV (propV product "image") "url"),
               ("mediaGallery", propV product "media_gallery"),
               ("stockStatus", propV product "stock_status")]) }
      | _ => { success := false, error := some "TypeError" }

/-- `createCartTool.execute` (cart-tools.js 23-50): runs the empty-cart
mutation with the context's customer token and wraps the returned cart id. -/
def createCartToolExecute (client : MagentoClient) (_params : JObj)
    (context : RequestContext) : CapabilityResult :=
  match client.run .CREATE_EMPTY_CART_MUTATION [] context.customerToken with
  | .error e => { success := false, error := some e }
  | .ok data =>
      { success := true
        data := some (.jobj [("cartId", propV data "createEmptyCart")])
        message := some "Shopping cart created successfully" }

/-- The `user_errors.map(e => e.message).join(', ')` of cart-tools.js 91-95. -/
def joinUserErrors (errors : List JsonV) : String :=
  String.intercalate ", " (errors.map (fun e => jvToString (propV e "message")))

/-- `addToCartTool.execute` (cart-tools.js 75-127): `quantity` defaults to 1
only when absent; backend `user_errors` become a `success:false` result. -/
def addToCartToolExecute (client : MagentoClient) (params : JObj)
    (context : RequestContext) : CapabilityResult :=
  let sku := (getProp params "sku").getD .jnull
  let quantity := (getProp params "quantity").getD (.jnum 1)
  let cartId := (getProp params "cartId").getD .jnull
  match client.run .ADD_PRODUCTS_TO_CART_MUTATION
      [("cartId", cartId),
       ("cartItems", .jarr [.jobj [("sku", sku), ("quantity", quantity)]])]
      context.customerToken with
  | .error e => { success := false, error := some e }
  | .ok data =>
      match propV (propV data "addProductsToCart") "user_errors" with
      | .jarr (e :: es) =>
          { success := false, error := some (joinUserErrors (e :: es)) }
      | _ =>
          let cart := propV (propV data "addProductsToCart") "cart"
          { success := true
            data := some (.jobj
              [("cartId", propV cart "id"),
               ("totalItems", propV cart "total_quantity"),
               ("total", propV (propV (propV cart "prices") "grand_total") "value"),
               ("currency", propV (propV (propV cart "prices") "grand_total") "currency"),
               ("items", propV cart "items")])
            message := some ("Added " ++ jvDisplay quantity ++ " "
              ++ (if isJsOne quantity then "item" else "items") ++ " to cart") }

/-- `getCartTool.execute` (cart-tools.js 144-179). -/
def getCartToolExecute (client : MagentoClient) (params : JObj)
    (context : RequestContext) : CapabilityResult :=
  let cartId := (getProp params "cartId").getD .jnull
  match client.run .GET_CART_QUERY [("cartId", cartId)] context.customerToken with
  | .error e => { success := false, error := some e }
  | .ok data =>
      let cart := propV data "cart"
      { success := true
        data := some (.jobj
          [("cartId", propV cart "id"), ("items", propV cart "items"),
           ("totalItems", propV cart "total_quantity"),
           ("total", propV (propV (propV cart "prices") "grand_total") "value"),
           ("currency", propV (propV (propV cart "prices") "grand_total") "currency"),
           ("subtotal", propV (propV (propV cart "prices") "subtotal_excluding_tax") "value")]) }

/-- `updateCartItemTool.execute` (cart-tools.js 204-231). -/
def updateCartItemToolExecute (client : MagentoClient) (params : JObj)
    (context : RequestContext) : CapabilityResult :=
  let cartId := (getProp params "cartId").getD .jnull
  let cartItemId := (getProp params "cartItemId").getD .jnull
  let quantity := (getProp params "quantity").getD .jnull
  match client.run .UPDATE_CART_ITEMS_MUTATION
      [("cartId", cartId), ("cartItemId", cartItemId), ("quantity", quantity)]
      context.customerToken with
  | .error e => { success := false, error := some e }
  | .ok data =>
      { success := true
        data := some (propV (propV data "updateCartItems") "cart")
        message := some "Cart item updated successfully" }

/-- `removeCartItemTool.execute` (cart-tools.js 252-279). -/
def removeCartItemToolExecute (client : MagentoClient) (params : JObj)
    (context : RequestContext) : CapabilityResult :=
  let cartId := (getProp params "cartId").getD .jnull
  let cartItemId := (getProp params "cartItemId").getD .jnull
  match client.run .REMOVE_ITEM_FROM_CART_MUTATION
      [("cartId", cartId), ("cartItemId", cartItemId)]
      context.customerToken with
  | .error e => { success := false, error := some e }
  | .ok data =>
      { success := true
        data := some (propV (propV data "removeItemFromCart") "cart")
        message := some "Item removed from cart" }

/-- The names of the seven registered tools, in registration order
(built-in/index.js 20-28). -/
def builtInToolNames : List String :=
  ["search_products", "get_product_details", "create_cart", "add_to_cart",
   "get_cart", "update_cart_item", "remove_cart_item"]

/-- `BuiltInTools.executeTool` (built-in/index.js 49-69): finds the named tool
in the fixed list and runs it; an unknown name yields a `success:false`
result with a descriptive error, and an exception thrown by a tool is caught
into the same shape — so the function is total, nothing escapes this
boundary. `ToolAdapter.executeTool` (adapter.js 55-62) delegates here in the
default `built-in` mode after initialization. -/
def executeTool (client : MagentoClient) (toolName : String) (params : JObj)
    (context : RequestContext) : CapabilityResult :=
  if toolName = "search_products" then productSearchToolExecute client params context
  else if toolName = "get_product_details" then getProductDetailsToolExecute client params context
  else if toolName = "create_cart" then createCartToolExecute client params context
  else if toolName = "add_to_cart" then addToCartToolExecute client params context
  else if toolName = "get_cart" then getCartToolExecute client params context
  else if toolName = "update_cart_item" then updateCartItemToolExecute client params context
  else if toolName = "remove_cart_item" then removeCartItemToolExecute client params context
  else { success := false, error := some ("Unknown tool: " ++ toolName) }

/-! ### Orchestrator — actions/agent/orchestrator.js (src/unnamed/part_005) -/

/-- The intent object (orchestrator.js 119-125 and the fallback literals):
`parameters` is the extracted-argument object. -/
structure Intent where
  type : String
  requiresTools : Bool
  suggestedTools : List String
  parameters : JObj

/-- Outcome of the `llmProvider.generateCompletion` call inside
`analyzeIntent`: either it resolved with some generated text (`.content`), or
it threw. -/
inductive LLMOutcome where
  | ok : String → LLMOutcome
  | failed : LLMOutcome

/-- The opening-brace character, `\x7b`. -/
def lbrace : Char := Char.ofNat 123

/-- The closing-brace character, `\x7d`. -/
def rbrace : Char := Char.ofNat 125

/-- Index of the last occurrence of a character. -/
def lastIdxOf (cs : List Char) (c : Char) : Option Nat :=
  match cs.reverse.findIdx? (· == c) with
  | some r => some (cs.length - 1 - r)
  | none => none

/-- The JS regular-expression match `content.match(/\x7b[\s\S]*\x7d/)`
(orchestrator.js line 140): greedy, so it spans from the first opening brace
to the last closing brace, provided the closing brace comes later. -/
def braceMatch (content : String) : Option String :=
  let cs := content.data
  match cs.findIdx? (· == lbrace), lastIdxOf cs rbrace with
  | some i, some j =>
      if i < j then some (String.mk ((cs.drop i).take (j - i + 1))) else none
  | some _, none => none
  | none, _ => none

/-- The intent literal returned when the model replied without any brace
region (orchestrator.js 147-152). -/
def generalQuestionIntent : Intent :=
  { type := "general_question", requiresTools := false, suggestedTools := [], parameters := [] }

/-- The deterministic fallback of the catch branch (orchestrator.js 156-184):
lower-cased substring matching on the raw user message. -/
def fallbackIntent (userMessage : String) : Intent :=
  let lowerMessage := jsToLowerCase userMessage
  if strIncludes lowerMessage "search" || strIncludes lowerMessage "find"
      || strIncludes lowerMessage "show" || strIncludes lowerMessage "looking for" then
    { type := "product_search", requiresTools := true,
      suggestedTools := ["search_products"],
      parameters := [("query", .jstr userMessage)] }
  else if strIncludes lowerMessage "cart" then
    { type := "view_cart", requiresTools := true,
      suggestedTools := ["get_cart"], parameters := [] }
  else
    { type := "general_question", requiresTools := false,
      suggestedTools := [], parameters := [] }

/-- `analyzeIntent` (orchestrator.js 104-186). `llm` is the outcome of the
single gateway call; `jsonParseIntent` models the platform `JSON.parse` on
the matched brace region (reading the parsed object as an Intent), with
`none` modelling a parse exception — thrown inside the `try`, hence caught
into the substring fallback. When the call resolves but no brace region
matches, the function returns the `general_question` literal directly; the
substring fallback runs only from the catch branch. The conversation-history
argument of the JS function does not influence the result and is omitted. -/
def analyzeIntent (userMessage : String) (llm : LLMOutcome)
    (jsonParseIntent : String → Option Intent) : Intent :=
  match llm with
  | .ok content =>
      match braceMatch content with
      | some matched =>
          match jsonParseIntent matched with
          | some intent => intent
          | none => fallbackIntent userMessage
      | none => generalQuestionIntent
  | .failed => fallbackIntent userMessage

/-- `extractToolParameters` (orchestrator.js 228-242): spreads
`intent.parameters`, merges a truthy `context.cartId`, and for
`search_products` with a falsy query sets `query` to
`intent.parameters.query || ''`. -/
def extractToolParameters (toolName : String) (intent : Intent)
    (context : RequestContext) : JObj :=
  let params := intent.parameters
  let params :=
    if truthyOptStr context.cartId then
      setProp params "cartId" (.jstr (context.cartId.getD ""))
    else params
  if toolName = "search_products" && falsy ((getProp params "query").getD .jnull) then
    setProp params "query" (jsOrV ((getProp intent.parameters "query").getD .jnull) (.jstr ""))
  else params

/-- One entry of the `results` array built by `executeTools`
(orchestrator.js 204-210), extended with a `params` trace field recording the
arguments passed to `toolAdapter.executeTool` for that invocation. -/
structure ToolCallRecord where
  toolName : String
  params : JObj
  success : Bool
  data : Option JsonV
  error : Option String
  message : Option String

/-- `executeTools` (orchestrator.js 191-223): iterates `intent.suggestedTools`
in order, sequentially; each iteration computes its parameters from
`(toolName, intent, context)` only — the loop never feeds an earlier result
(in particular a created cart id) back into `context` or `intent`. The
embedded tool adapter is total, so the JS catch around the call is
unreachable here. -/
def executeTools (client : MagentoClient) (intent : Intent)
    (context : RequestContext) : List ToolCallRecord :=
  intent.suggestedTools.map (fun toolName =>
    let params := extractToolParameters toolName intent context
    let result := executeTool client toolName params context
    { toolName, params, success := result.success, data := result.data,
      error := result.error, message := result.message })

/-! ### Concrete fixtures used by the witnesses and counterexamples -/

/-- A parse oracle on which `JSON.parse` always throws. -/
def noParse : String → Option Intent := fun _ => none

/-- A client whose every network call fails. -/
def wErrClient : MagentoClient := ⟨fun _ _ _ => .error "offline"⟩

/-- A request context carrying neither a customer token nor a cart id. -/
def emptyContext : RequestContext := ⟨none, none⟩

/-- A client on which creating a cart succeeds (returning cart id
`new-cart-1`) and every other call fails. -/
def cexCartClient : MagentoClient :=
  ⟨fun doc _vars _tok =>
    match doc with
    | .CREATE_EMPTY_CART_MUTATION => .ok (.jobj [("createEmptyCart", .jstr "new-cart-1")])
    | _ => .error "Magento API Error: network unreachable"⟩

/-- A classified intent suggesting the `[create_cart, add_to_cart]` sequence
with an extracted sku. -/
def cexCartIntent : Intent :=
  { type := "add_to_cart", requiresTools := true,
    suggestedTools := ["create_cart", "add_to_cart"],
    parameters := [("sku", .jstr "SHIRT-1")] }

/-- A model reply with no brace-delimited region at all. -/
def c2NoJsonContent : String := "Sorry, I cannot determine the intent."

/-- A model reply whose brace-delimited region is not valid JSON. -/
def c2BadJsonContent : String := "Intent: \x7bnot valid json\x7d ok"

/-- An intent whose `requiresTools` flag contradicts its capability list —
exactly what a model may emit as JSON. -/
def inconsistentIntent : Intent :=
  { type := "product_search", requiresTools := true, suggestedTools := [], parameters := [] }

/-- The model reply whose JSON object parses to `inconsistentIntent`. -/
def c6Content : String :=
  "\x7b\"type\": \"product_search\", \"requiresTools\": true, \"suggestedTools\": []\x7d"

/-- A parse oracle behaving as `JSON.parse` does on `c6Content`. -/
def c6Parse : String → Option Intent :=
  fun s => if s = c6Content then some inconsistentIntent else none

/-- A history entry. -/
def wMsg : Message := { role := "user", content := "m", timestamp := "t0", metadata := [] }

/-- A session whose history already holds exactly 50 messages. -/
def wSession50 : Session :=
  { sessionId := "sess-1", userType := "guest", customerToken := none, cartId := none,
    conversationHistory := List.replicate 50 wMsg, metaCreatedAt := "t0",
    metaLastActivity := "t0" }

/-- A store holding `wSession50`. -/
def wStore50 : Store := [("sess-1", wSession50)]

/-- The 51st message appended to `wSession50`. -/
def wNewMsg : Message := { role := "user", content := "hello", timestamp := "t1", metadata := [] }

/-- The session as stored after appending `wNewMsg` to `wSession50`. -/
def wSession50' : Session :=
  { wSession50 with
    conversationHistory := (List.replicate 49 wMsg ++ [wNewMsg])
    metaLastActivity := "t1" }

/-- An authenticated session holding its identity credential. -/
def wAuthSession : Session :=
  { sessionId := "sess-2", userType := "logged-in", customerToken := some "tok-1",
    cartId := none, conversationHistory := [], metaCreatedAt := "t0",
    metaLastActivity := "t0" }

/-- A store holding `wAuthSession`. -/
def wAuthStore : Store := [("sess-2", wAuthSession)]

/-- A history entry for the read-path fixtures. -/
def wMsgA : Message := { role := "user", content := "hi", timestamp := "t0", metadata := [] }

/-- A session whose history holds a single message. -/
def wSessionOne : Session :=
  { sessionId := "sess-3", userType := "guest", customerToken := none, cartId := none,
    conversationHistory := [wMsgA], metaCreatedAt := "t0", metaLastActivity := "t0" }

/-- A store holding `wSessionOne`. -/
def wStoreOne : Store := [("sess-3", wSessionOne)]

/-- Search parameters requesting 50 products. -/
def wSearchParams : JObj := [("query", .jstr "shirt"), ("pageSize", .jnum 50)]

/-! ### Helper lemmas -/

theorem getProp_setProp_self (o : JObj) (k : String) (v : JsonV) :
    getProp (setProp o k v) k = some v := by
  induction o with
  | nil => simp [setProp, getProp]
  | cons hd tl ih =>
      obtain ⟨k', v'⟩ := hd
      by_cases h : k' = k
      · simp [setProp, h, getProp]
      · simp [setProp, h, getProp, ih]

theorem findSession_setSession (store : Store) (s : Session) (k : String) :
    findSession (setSession store s) k =
      if s.sessionId = k then some s else findSession store k := by
  induction store with
  | nil => by_cases h : s.sessionId = k <;> simp [setSession, findSession, h]
  | cons hd tl ih =>
      obtain ⟨k', s'⟩ := hd
      simp only [setSession]
      by_cases h1 : k' = s.sessionId
      · rw [if_pos h1]
        by_cases h2 : k' = k
        · have h3 : s.sessionId = k := h1.symm.trans h2
          simp [findSession, h2, h3]
        · have h3 : ¬ s.sessionId = k := fun hh => h2 (h1.trans hh)
          simp [findSession, h2, h3]
      · rw [if_neg h1]
        by_cases h2 : k' = k
        · have h3 : ¬ s.sessionId = k := fun hh => h1 (h2.trans hh.symm)
          simp [findSession, h2, h3]
        · simp [findSession, h2, ih]

theorem pushMessage_length_le (h : List Message) (m : Message) :
    (pushMessage h m).length ≤ 50 := by
  unfold pushMessage
  by_cases hl : (h ++ [m]).length > 50
  · rw [if_pos hl, List.length_drop]; omega
  · rw [if_neg hl]; omega

theorem pushMessage_at_cap (h : List Message) (m : Message) (hl : h.length = 50) :
    pushMessage h m = h.tail ++ [m] := by
  unfold pushMessage
  have hlen : (h ++ [m]).length = 51 := by simp [hl]
  rw [if_pos (by omega)]
  have hone : (h ++ [m]).length - 50 = 1 := by omega
  rw [hone, List.drop_append_of_le_length (by omega), List.drop_one]

/-! ### The claims -/

/-- C3: for every session and every append, the stored history after
`addMessage` is the append-time-truncated `pushMessage` result, its length
never exceeds 50, and appending to a 50-message history evicts exactly the
oldest entry. -/
theorem claim3_history_bound (store : Store) (sid role content : String) (md : JObj)
    (now : String) (s : Session) (msg : Message) (store' : Store) (s' : Session)
    (hload : findSession store sid = some s) (hkey : s.sessionId = sid)
    (hrun : addMessage store sid role content md now = .ok (msg, store'))
    (hafter : findSession store' sid = some s') :
    s'.conversationHistory = pushMessage s.conversationHistory msg ∧
    s'.conversationHistory.length ≤ 50 ∧
    (s.conversationHistory.length = 50 →
      s'.conversationHistory = s.conversationHistory.tail ++ [msg]) := by
  simp only [addMessage, hload, saveSession, Except.ok.injEq, Prod.mk.injEq] at hrun
  obtain ⟨rfl, rfl⟩ := hrun
  rw [findSession_setSession, if_pos hkey] at hafter
  injection hafter with hafter
  subst hafter
  exact ⟨rfl, pushMessage_length_le _ _, fun hcap => pushMessage_at_cap _ _ hcap⟩

/-- C3 witness: appending a 51st message to a session holding exactly 50
evicts exactly the oldest entry and keeps the stored length at 50. -/
theorem claim3_witness :
    wSession50'.conversationHistory = pushMessage wSession50.conversationHistory wNewMsg ∧
    wSession50'.conversationHistory.length ≤ 50 ∧
    wSession50'.conversationHistory = wSession50.conversationHistory.tail ++ [wNewMsg] := by
  have h := claim3_history_bound wStore50 "sess-1" "user" "hello" [] "t1" wSession50 wNewMsg
    [("sess-1", wSession50')] wSession50' rfl rfl rfl rfl
  exact ⟨h.1, h.2.1, h.2.2 rfl⟩

/-- C4: once a stored session is authenticated (userType `logged-in`, with a
truthy identity credential), a later `getOrCreateSession` on its id — with or
without a credential — returns that very session unchanged (same userType,
same original credential) and leaves the store untouched; and none of the
other session-store mutators (`addMessage`, `updateCartId`, `clearHistory`)
changes the stored `userType` or `customerToken`. -/
theorem claim4_auth_one_way (store : Store) (sid : String) (s : Session)
    (tok cart : Option String) (freshId now : String)
    (hload : findSession store sid = some s) (hsid : sid ≠ "")
    (hkey : s.sessionId = sid)
    (hauth : s.userType = "logged-in") (htok : truthyOptStr s.customerToken = true) :
    getOrCreateSession store (some sid) tok cart freshId now = (s, store) ∧
    (∀ role content md store₂ msg,
      addMessage store sid role content md now = .ok (msg, store₂) →
      ∀ s₂, findSession store₂ sid = some s₂ →
        s₂.userType = "logged-in" ∧ s₂.customerToken = s.customerToken) ∧
    (∀ cid store₂, updateCartId store sid cid now = .ok store₂ →
      ∀ s₂, findSession store₂ sid = some s₂ →
        s₂.userType = "logged-in" ∧ s₂.customerToken = s.customerToken) ∧
    (∀ store₂, clearHistory store sid now = .ok store₂ →
      ∀ s₂, findSession store₂ sid = some s₂ →
        s₂.userType = "logged-in" ∧ s₂.customerToken = s.customerToken) := by
  have hb : (sid != "") = true := bne_iff_ne.mpr hsid
  refine ⟨?_, ?_, ?_, ?_⟩
  · simp [getOrCreateSession, hb, hload, htok]
  · intro role content md store₂ msg hrun s₂ hfind₂
    simp only [addMessage, hload, saveSession, Except.ok.injEq, Prod.mk.injEq] at hrun
    obtain ⟨-, rfl⟩ := hrun
    rw [findSession_setSession, if_pos hkey] at hfind₂
    injection hfind₂ with hfind₂
    subst hfind₂
    exact ⟨hauth, rfl⟩
  · intro cid store₂ hrun s₂ hfind₂
    simp only [updateCartId, hload, saveSession, Except.ok.injEq] at hrun
    subst hrun
    rw [findSession_setSession, if_pos hkey] at hfind₂
    injection hfind₂ with hfind₂
    subst hfind₂
    exact ⟨hauth, rfl⟩
  · intro store₂ hrun s₂ hfind₂
    simp only [clearHistory, hload, saveSession, Except.ok.injEq] at hrun
    subst hrun
    rw [findSession_setSession, if_pos hkey] at hfind₂
    injection hfind₂ with hfind₂
    subst hfind₂
    exact ⟨hauth, rfl⟩

/-- C4 witness: an authenticated session is returned unchanged by
`getOrCreateSession`, both without a credential and with a different one. -/
theorem claim4_witness :
    getOrCreateSession wAuthStore (some "sess-2") none none "fresh-id" "t1" =
      (wAuthSession, wAuthStore) ∧
    getOrCreateSession wAuthStore (some "sess-2") (some "tok-2") none "fresh-id" "t1" =
      (wAuthSession, wAuthStore) :=
  ⟨(claim4_auth_one_way wAuthStore "sess-2" wAuthSession none none "fresh-id" "t1"
      rfl (by decide) rfl rfl rfl).1,
   (claim4_auth_one_way wAuthStore "sess-2" wAuthSession (some "tok-2") none "fresh-id" "t1"
      rfl (by decide) rfl rfl rfl).1⟩

/-- C5 counterexample: `clearHistory` on a session id that does not resolve
returns successfully (no `NotFoundError` is thrown) and leaves the store
as it was. -/
theorem claim5_counterexample :
    clearHistory ([] : Store) "missing" "t0" = .ok [] ∧
    findSession ([] : Store) "missing" = none :=
  ⟨rfl, rfl⟩

/-- C5 as amended: when the session id does not resolve, `addMessage` and
`updateCartId` fail with the `Session not found` error, while `clearHistory`
silently succeeds; none of the three creates a session (the store is
returned unchanged). -/
theorem claim5_missing_session_ops (store : Store) (sid role content : String)
    (md : JObj) (cid now : String) (h : findSession store sid = none) :
    addMessage store sid role content md now = .error ("Session not found: " ++ sid) ∧
    updateCartId store sid cid now = .error ("Session not found: " ++ sid) ∧
    clearHistory store sid now = .ok store := by
  simp [addMessage, updateCartId, clearHistory, h]

/-- C5 witness: the three operations on an empty store. -/
theorem claim5_witness :
    addMessage ([] : Store) "nope" "user" "x" [] "t0" = .error "Session not found: nope" ∧
    updateCartId ([] : Store) "nope" "cart-1" "t0" = .error "Session not found: nope" ∧
    clearHistory ([] : Store) "nope" "t0" = .ok ([] : Store) :=
  claim5_missing_session_ops [] "nope" "user" "x" [] "cart-1" "t0" rfl

/-- C10 counterexample: `getHistory` with `limit = 0` on a one-message
session returns the whole history (JS `slice(-0)` is `slice(0)`), not the
`min(limit, length) = 0` messages the claim demands. -/
theorem claim10_counterexample :
    getHistory wStoreOne "sess-3" 0 = [wMsgA] ∧
    (getHistory wStoreOne "sess-3" 0).length ≠ min 0 wSessionOne.conversationHistory.length := by
  exact ⟨rfl, by decide⟩

/-- C10 as amended: an unresolvable session id yields `[]` (no error); for a
live session and any positive limit the result is the suffix of the last
`min(limit, length)` messages in chronological order; the default limit is
10. At `limit = 0` the code returns the entire history instead. -/
theorem claim10_recent_history (store : Store) (sid : String) (limit : Nat) :
    (findSession store sid = none → getHistory store sid limit = []) ∧
    (∀ s, findSession store sid = some s → 1 ≤ limit →
      getHistory store sid limit =
        s.conversationHistory.drop (s.conversationHistory.length - limit) ∧
      (getHistory store sid limit).length = min limit s.conversationHistory.length) ∧
    (∀ s, findSession store sid = some s →
      getHistoryD store sid = jsSliceLast s.conversationHistory 10) := by
  refine ⟨fun h => by simp [getHistory, h], fun s h hpos => ?_, fun s h => ?_⟩
  · have hne : limit ≠ 0 := by omega
    have hval : getHistory store sid limit =
        s.conversationHistory.drop (s.conversationHistory.length - limit) := by
      simp [getHistory, h, jsSliceLast, hne]
    refine ⟨hval, ?_⟩
    rw [hval, List.length_drop, Nat.min_def]
    split <;> omega
  · simp [getHistoryD, getHistory, h]

/-- C10 witness: a one-message session read with limit 2, and an
unresolvable id read on the empty store. -/
theorem claim10_witness :
    getHistory wStoreOne "sess-3" 2 = [wMsgA] ∧
    (getHistory wStoreOne "sess-3" 2).length = min 2 1 ∧
    getHistory ([] : Store) "absent" 5 = [] := by
  have h := claim10_recent_history wStoreOne "sess-3" 2
  have h2 := h.2.1 wSessionOne rfl (by decide)
  exact ⟨h2.1, h2.2, (claim10_recent_history [] "absent" 5).1 rfl⟩

/-- C2 counterexample: a successful gateway call whose reply contains no
brace-delimited region makes `analyzeIntent` return `general_question`
directly — not the substring fallback — even though the message contains
"show", for which the fallback would classify `product_search`. -/
theorem claim2_counterexample :
    braceMatch c2NoJsonContent = none ∧
    analyzeIntent "show me red shirts" (.ok c2NoJsonContent) noParse = generalQuestionIntent ∧
    (analyzeIntent "show me red shirts" (.ok c2NoJsonContent) noParse).type ≠ "product_search" ∧
    (fallbackIntent "show me red shirts").type = "product_search" := by
  exact ⟨rfl, rfl, by decide, rfl⟩

/-- C2 as amended: only a parse failure on an extracted brace region (or a
gateway failure) falls through to the substring fallback; a reply with no
brace region at all yields `general_question` directly. A message containing
"show" is classified `product_search` by the fallback. -/
theorem claim2_json_fallback_paths (userMessage content : String)
    (jsonParseIntent : String → Option Intent) :
    (braceMatch content = none →
      analyzeIntent userMessage (.ok content) jsonParseIntent = generalQuestionIntent) ∧
    (∀ matched, braceMatch content = some matched → jsonParseIntent matched = none →
      analyzeIntent userMessage (.ok content) jsonParseIntent = fallbackIntent userMessage) ∧
    (strIncludes (jsToLowerCase userMessage) "show" = true →
      (fallbackIntent userMessage).type = "product_search" ∧
      (fallbackIntent userMessage).suggestedTools = ["search_products"]) := by
  refine ⟨fun h => by simp [analyzeIntent, h], fun m h hp => by simp [analyzeIntent, h, hp],
    fun h => ?_⟩
  simp [fallbackIntent, h]

/-- C2 witness: the no-brace reply path and the unparsable-brace-region
path, the latter landing in the substring fallback. -/
theorem claim2_witness :
    analyzeIntent "hello there" (.ok c2NoJsonContent) noParse = generalQuestionIntent ∧
    analyzeIntent "show me red shirts" (.ok c2BadJsonContent) noParse =
      fallbackIntent "show me red shirts" ∧
    (fallbackIntent "show me red shirts").type = "product_search" := by
  have h := claim2_json_fallback_paths "hello there" c2NoJsonContent noParse
  have h' := claim2_json_fallback_paths "show me red shirts" c2BadJsonContent noParse
  exact ⟨h.1 rfl, h'.2.1 "\x7bnot valid json\x7d" rfl rfl, (h'.2.2 rfl).1⟩

/-- C6 counterexample: a model reply whose JSON object carries
`requiresTools: true` with an empty capability list is returned verbatim by
`analyzeIntent` — the flag is not re-derived, so the claimed iff-invariant
fails. -/
theorem claim6_counterexample :
    analyzeIntent "add a red shirt to my cart" (.ok c6Content) c6Parse = inconsistentIntent ∧
    inconsistentIntent.requiresTools = true ∧
    inconsistentIntent.suggestedTools = [] ∧
    ¬((analyzeIntent "add a red shirt to my cart" (.ok c6Content) c6Parse).requiresTools = true ↔
      (analyzeIntent "add a red shirt to my cart" (.ok c6Content) c6Parse).suggestedTools ≠ []) := by
  refine ⟨rfl, rfl, rfl, ?_⟩
  intro hiff
  exact (hiff.mp rfl) rfl

/-- C6 as amended: the fallback-produced intents (gateway failure, and the
no-brace-region reply) satisfy `requiresTools = true` iff the suggested
capability list is non-empty; an intent parsed from model JSON is returned
verbatim, so for it the invariant holds only if the model emitted it
consistently. -/
theorem claim6_requires_tools_fallback_only (userMessage content : String)
    (jsonParseIntent : String → Option Intent) :
    ((fallbackIntent userMessage).requiresTools = true ↔
      (fallbackIntent userMessage).suggestedTools ≠ []) ∧
    ((analyzeIntent userMessage .failed jsonParseIntent).requiresTools = true ↔
      (analyzeIntent userMessage .failed jsonParseIntent).suggestedTools ≠ []) ∧
    (braceMatch content = none →
      ((analyzeIntent userMessage (.ok content) jsonParseIntent).requiresTools = true ↔
        (analyzeIntent userMessage (.ok content) jsonParseIntent).suggestedTools ≠ [])) := by
  have hfb : (fallbackIntent userMessage).requiresTools = true ↔
      (fallbackIntent userMessage).suggestedTools ≠ [] := by
    unfold fallbackIntent
    by_cases h1 : (strIncludes (jsToLowerCase userMessage) "search"
        || strIncludes (jsToLowerCase userMessage) "find"
        || strIncludes (jsToLowerCase userMessage) "show"
        || strIncludes (jsToLowerCase userMessage) "looking for") = true
    · simp [h1]
    · by_cases h2 : strIncludes (jsToLowerCase userMessage) "cart" = true <;>
        simp [h1, h2]
  refine ⟨hfb, ?_, fun h => ?_⟩
  · simpa [analyzeIntent] using hfb
  · simp [analyzeIntent, h, generalQuestionIntent]

/-- C6 witness: the invariant holds on the fallback of a gateway failure and
on the no-brace-region path, at concrete inputs. -/
theorem claim6_witness :
    ((analyzeIntent "show me red shirts" .failed noParse).requiresTools = true ↔
      (analyzeIntent "show me red shirts" .failed noParse).suggestedTools ≠ []) ∧
    ((analyzeIntent "hello" (.ok c2NoJsonContent) noParse).requiresTools = true ↔
      (analyzeIntent "hello" (.ok c2NoJsonContent) noParse).suggestedTools ≠ []) := by
  have h := claim6_requires_tools_fallback_only "show me red shirts" c2NoJsonContent noParse
  have h' := claim6_requires_tools_fallback_only "hello" c2NoJsonContent noParse
  exact ⟨h.2.1, h'.2.2 rfl⟩

/-- C8: whenever the gateway call of the classifier throws, the message
"show me red shirts" deterministically classifies as `product_search`,
requiring tools, with exactly `search_products` suggested and the raw
message as query parameter — for every parse oracle (the parse is never
reached). -/
theorem claim8_fallback_show_red_shirts (jsonParseIntent : String → Option Intent) :
    analyzeIntent "show me red shirts" .failed jsonParseIntent =
      { type := "product_search", requiresTools := true,
        suggestedTools := ["search_products"],
        parameters := [("query", .jstr "show me red shirts")] } := rfl

/-- C1 counterexample: with no pre-existing cart and an intent suggesting
`[create_cart, add_to_cart]`, `create_cart` completes first and returns cart
id `new-cart-1`, yet the parameters passed to the subsequent `add_to_cart`
invocation contain no `cartId` at all — the created cart reference is not
fed forward. -/
theorem claim1_counterexample :
    executeTools cexCartClient cexCartIntent emptyContext =
      [ { toolName := "create_cart", params := [("sku", .jstr "SHIRT-1")], success := true,
          data := some (.jobj [("cartId", .jstr "new-cart-1")]), error := none,
          message := some "Shopping cart created successfully" },
        { toolName := "add_to_cart", params := [("sku", .jstr "SHIRT-1")], success := false,
          data := none, error := some "Magento API Error: network unreachable",
          message := none } ] ∧
    getProp (extractToolParameters "add_to_cart" cexCartIntent emptyContext) "cartId" = none :=
  ⟨rfl, rfl⟩

/-- C1 as amended: for an intent suggesting `[create_cart, add_to_cart]` the
orchestrator does dispatch the two capabilities sequentially in that order,
but each call's parameters are computed from the intent and the pre-turn
context only: `add_to_cart`'s `cartId` is the context's cart reference when
truthy, otherwise whatever the classifier extracted — never the cart
reference returned by `create_cart`. -/
theorem claim1_sequential_no_threading (client : MagentoClient) (intent : Intent)
    (context : RequestContext)
    (h : intent.suggestedTools = ["create_cart", "add_to_cart"]) :
    (executeTools client intent context).map (fun r => (r.toolName, r.params)) =
      [("create_cart", extractToolParameters "create_cart" intent context),
       ("add_to_cart", extractToolParameters "add_to_cart" intent context)] ∧
    getProp (extractToolParameters "add_to_cart" intent context) "cartId" =
      (if truthyOptStr context.cartId then some (.jstr (context.cartId.getD ""))
       else getProp intent.parameters "cartId") := by
  constructor
  · simp [executeTools, h]
  · unfold extractToolParameters
    by_cases hc : truthyOptStr context.cartId = true
    · simp only [hc, if_true, if_pos]
      simp [getProp_setProp_self]
    · simp only [Bool.not_eq_true] at hc
      simp [hc]

/-- C1 witness: the amended statement at the concrete counterexample
fixtures. -/
theorem claim1_witness :
    (executeTools cexCartClient cexCartIntent emptyContext).map (fun r => (r.toolName, r.params)) =
      [("create_cart", extractToolParameters "create_cart" cexCartIntent emptyContext),
       ("add_to_cart", extractToolParameters "add_to_cart" cexCartIntent emptyContext)] ∧
    getProp (extractToolParameters "add_to_cart" cexCartIntent emptyContext) "cartId" = none := by
  have h := claim1_sequential_no_threading cexCartClient cexCartIntent emptyContext rfl
  exact ⟨h.1, h.2⟩

/-- C7: for every capability name outside the registry's catalog,
`executeTool` returns a `success = false` result with a descriptive error;
the function is total, so nothing is thrown past this boundary. -/
theorem claim7_unknown_tool (client : MagentoClient) (toolName : String) (params : JObj)
    (context : RequestContext) (h : toolName ∉ builtInToolNames) :
    executeTool client toolName params context =
      { success := false, data := none, error := some ("Unknown tool: " ++ toolName),
        message := none } := by
  simp only [builtInToolNames, List.mem_cons, List.not_mem_nil, or_false, not_or] at h
  obtain ⟨h1, h2, h3, h4, h5, h6, h7⟩ := h
  simp [executeTool, h1, h2, h3, h4, h5, h6, h7]

/-- C7 witness: the mistyped name "make_coffee". -/
theorem claim7_witness :
    "make_coffee" ∉ builtInToolNames ∧
    executeTool wErrClient "make_coffee" [] emptyContext =
      { success := false, data := none, error := some "Unknown tool: make_coffee",
        message := none } :=
  ⟨by decide, claim7_unknown_tool wErrClient "make_coffee" [] emptyContext (by decide)⟩

/-- C9: in the variables object the search tool forwards to the commerce
backend, `pageSize` is the minimum of the supplied page size and 20
(defaulting to 10 when absent), `currentPage` defaults to 1, and any
numeric forwarded page size is at most 20. -/
theorem claim9_search_page_size (params : JObj) :
    (getProp params "pageSize" = none →
      getProp (searchQueryVars params) "pageSize" = some (.jnum 10)) ∧
    (∀ n : Int, getProp params "pageSize" = some (.jnum n) →
      getProp (searchQueryVars params) "pageSize" = some (.jnum (min n 20))) ∧
    (getProp params "currentPage" = none →
      getProp (searchQueryVars params) "currentPage" = some (.jnum 1)) ∧
    (∀ n : Int, getProp (searchQueryVars params) "pageSize" = some (.jnum n) → n ≤ 20) := by
  refine ⟨fun h => ?_, fun n h => ?_, fun h => ?_, fun n h => ?_⟩
  · simp [searchQueryVars, getProp, h, jsMathMin]
  · simp [searchQueryVars, getProp, h, jsMathMin]
  · simp [searchQueryVars, getProp, h]
  · rcases hp : getProp params "pageSize" with _ | v
    · simp [searchQueryVars, getProp, hp, jsMathMin] at h
      omega
    · rcases v with q | m | b | _ | a | o <;>
        simp [searchQueryVars, getProp, hp, jsMathMin] at h
      · rcases h with ⟨rfl⟩
        omega

/-- C9 witness: a request for 50 products is clamped to 20, and the page
defaults to 1. -/
theorem claim9_witness :
    getProp (searchQueryVars wSearchParams) "pageSize" = some (.jnum 20) ∧
    getProp (searchQueryVars wSearchParams) "currentPage" = some (.jnum 1) := by
  have h := claim9_search_page_size wSearchParams
  have h2 := h.2.1 50 rfl
  have hmin : min (50 : Int) 20 = 20 := by decide
  rw [hmin] at h2
  exact ⟨h2, h.2.2.1 rfl⟩

end Agentic
